import Mathlib

/-!
Verification of the card state synchronization and polling engine of
JanusSpecView (`src/views/swaggerView/SwaggerView.tsx`), shallowly
embedded in Lean.  JSON values are modelled by an inductive type,
`JSON.stringify` by a recursive serializer, the React state by explicit
records, and each handler (`fetchData`, `addCard`, `saveEditCard`,
`deleteCard`, `toggleAutoRefresh`, `handleCardClick`,
`loadCardsFromStorage`) by a pure function on that state.
-/

namespace JanusSpecView

/-- JSON values as produced by `res.json()` / stored in `card.response`.
Object fields are kept in insertion order, as JavaScript objects do;
numbers are modelled as integers (no claim here depends on float
formatting). -/
inductive Json where
  | null : Json
  | bool (b : Bool) : Json
  | num (n : Int) : Json
  | str (s : String) : Json
  | arr (elems : List Json) : Json
  | obj (fields : List (String × Json)) : Json
deriving Repr

mutual

/-- Structural (order-sensitive) boolean equality on JSON values. -/
def Json.beq : Json → Json → Bool
  | .null, .null => true
  | .bool a, .bool b => a == b
  | .num a, .num b => a == b
  | .str a, .str b => a == b
  | .arr xs, .arr ys => beqElems xs ys
  | .obj xs, .obj ys => beqFields xs ys
  | _, _ => false

def beqElems : List Json → List Json → Bool
  | [], [] => true
  | x :: xs, y :: ys => Json.beq x y && beqElems xs ys
  | _, _ => false

def beqFields : List (String × Json) → List (String × Json) → Bool
  | [], [] => true
  | (k, v) :: xs, (k', v') :: ys => k == k' && Json.beq v v' && beqFields xs ys
  | _, _ => false

end

/-- Escaping of one character inside a JSON string literal, as
`JSON.stringify` does for the characters that occur in this development. -/
def escapeJsonChar (c : Char) : String :=
  if c = '"' then "\\\""
  else if c = '\\' then "\\\\"
  else if c = '\n' then "\\n"
  else if c = '\t' then "\\t"
  else if c = '\r' then "\\r"
  else String.singleton c

def escapeJson (s : String) : String :=
  String.join (s.toList.map escapeJsonChar)

/-- A JSON string literal: `"..."` with escapes. -/
def quoteJson (s : String) : String :=
  "\"" ++ escapeJson s ++ "\""

mutual

/-- `JSON.stringify` on a JSON value: objects serialize their fields in
insertion order. -/
def Json.stringify : Json → String
  | .null => "null"
  | .bool true => "true"
  | .bool false => "false"
  | .num n => toString n
  | .str s => quoteJson s
  | .arr elems => "[" ++ String.intercalate "," (stringifyElems elems) ++ "]"
  | .obj fields =>
      "\x7b" ++ String.intercalate "," (stringifyFields fields) ++ "\x7d"

def stringifyElems : List Json → List String
  | [] => []
  | j :: rest => Json.stringify j :: stringifyElems rest

def stringifyFields : List (String × Json) → List String
  | [] => []
  | (k, v) :: rest => (quoteJson k ++ ":" ++ Json.stringify v) :: stringifyFields rest

end

/-- JavaScript truthiness of a JSON value (`null`, `false`, `0` and `""`
are falsy; arrays and objects are always truthy). -/
def Json.truthy : Json → Bool
  | .null => false
  | .bool b => b
  | .num n => n != 0
  | .str s => s != ""
  | .arr _ => true
  | .obj _ => true

/-- Lexicographic order on character lists (code-point order). -/
def leChars : List Char → List Char → Bool
  | [], _ => true
  | _ :: _, [] => false
  | a :: as, b :: bs =>
      if a = b then leChars as bs else decide (a.val.toNat < b.val.toNat)

/-- Lexicographic order on strings, used only to pick a canonical key
order. -/
def leString (a b : String) : Bool :=
  leChars a.data b.data

/-- Insert a key/value pair into a key-sorted field list (insertion sort
step), used for the key-order-insensitive canonical form. -/
def insertField (kv : String × Json) : List (String × Json) → List (String × Json)
  | [] => [kv]
  | kv' :: rest =>
      if leString kv.1 kv'.1 then kv :: kv' :: rest else kv' :: insertField kv rest

def sortFields : List (String × Json) → List (String × Json)
  | [] => []
  | kv :: rest => insertField kv (sortFields rest)

mutual

/-- Canonical form of a JSON value with object keys sorted recursively.
Modelled from the spec: deep structural equality over values, stable
under object-key reordering, is equality of canonical forms. -/
def Json.canon : Json → Json
  | .null => .null
  | .bool b => .bool b
  | .num n => .num n
  | .str s => .str s
  | .arr elems => .arr (canonElems elems)
  | .obj fields => .obj (sortFields (canonFields fields))

def canonElems : List Json → List Json
  | [] => []
  | j :: rest => Json.canon j :: canonElems rest

def canonFields : List (String × Json) → List (String × Json)
  | [] => []
  | (k, v) :: rest => (k, Json.canon v) :: canonFields rest

end

/-- Modelled from the spec: deep structural equality over JSON values,
insensitive to the order of object keys ("implementations must compare
values, not stringified forms").  This is the spec-side comparison; the
code-side comparison is `responseChanged` below. -/
def structuralEqSpec (a b : Json) : Bool :=
  Json.beq (Json.canon a) (Json.canon b)

/-- The whitespace characters JavaScript `String.prototype.trim` strips
(restricted to the ASCII ones that can occur here). -/
def isJsWs (c : Char) : Bool :=
  c = ' ' || c = '\t' || c = '\n' || c = '\r'

/-- JavaScript `String.prototype.trim`: drop whitespace from both ends. -/
def trimString (s : String) : String :=
  ⟨((s.data.dropWhile isJsWs).reverse.dropWhile isJsWs).reverse⟩

/-- The `SwaggerCard` interface.  `response` is a JSON value with
`Json.null` standing for the TypeScript `null`; `error`, `swaggerUrl`
use `Option` for `string | null` / optional; `lastUpdated` is an
`Option Nat` timestamp (a `Date` survives the JSON round trip through
its ISO string unchanged, so the timestamp abstraction is exact). -/
structure Card where
  id : String
  name : String
  url : String
  swaggerUrl : Option String
  autoRefresh : Bool
  loading : Bool
  response : Json
  error : Option String
  lastUpdated : Option Nat
deriving Repr

/-- The built-in default card returned when no persisted state exists. -/
def defaultCard : Card :=
  { id := "1"
    name := "users"
    url := "http://3dpit.iptime.org:8000/api/v1/users/api-docs"
    swaggerUrl := none
    autoRefresh := false
    loading := false
    response := .null
    error := none
    lastUpdated := none }

/-- One restored card inside `loadCardsFromStorage`'s `parsed.map`:
`loading` is reset, `swaggerUrl`/`response`/`error` go through
JavaScript `||` (falsy values collapse to `undefined`/`null`),
`autoRefresh` through `?? false`, `lastUpdated` through
`card.lastUpdated ? new Date(card.lastUpdated) : null`. -/
def restoreCard (c : Card) : Card :=
  { id := c.id
    name := c.name
    url := c.url
    swaggerUrl := match c.swaggerUrl with
      | some s => if s = "" then none else some s
      | none => none
    autoRefresh := c.autoRefresh
    loading := false
    response := if c.response.truthy then c.response else .null
    error := match c.error with
      | some s => if s = "" then none else some s
      | none => none
    lastUpdated := c.lastUpdated }

/-- `loadCardsFromStorage`: `none` models both absence of the storage
key and a JSON parse failure (the `catch` branch); either way the
single built-in default card is returned. -/
def loadCardsFromStorage : Option (List Card) → List Card
  | none => [defaultCard]
  | some stored => stored.map restoreCard

/-- Serialization of the card list to the persistent store.
`JSON.stringify` on a well-typed card array is faithful at this
abstraction (dropped `undefined` fields and ISO `Date` strings are
already captured by the `Option` types), so the stored blob is the
card list itself. -/
def serializeCards (cards : List Card) : Option (List Card) :=
  some cards

/-- The relevant React state: the card list and the changed-card-id
set (a JavaScript `Set<string>`, modelled as a duplicate-free list in
insertion order). -/
structure AppState where
  cards : List Card
  changedCardIds : List String
deriving Repr

/-- `Set.add`: append if absent. -/
def setAdd (s : List String) (x : String) : List String :=
  if x ∈ s then s else s ++ [x]

/-- `Set.delete`: remove the element. -/
def setDelete (s : List String) (x : String) : List String :=
  s.filter (fun y => y ≠ x)

/-- `handleCardClick`: when the clicked card is in the changed set its
id is deleted from the set (then the app navigates to the detail view,
which has no effect on this state). -/
def handleCardClick (st : AppState) (cardId : String) : AppState :=
  if cardId ∈ st.changedCardIds then
    { st with changedCardIds := setDelete st.changedCardIds cardId }
  else st

/-- The change detector inside `fetchData`:
`JSON.stringify(c.response) !== JSON.stringify(data)`. -/
def responseChanged (old new : Json) : Bool :=
  Json.stringify old != Json.stringify new

/-- The classified fetch failures: a network-level failure
(`TypeError` whose message mentions `fetch`), a non-2xx HTTP status
(the throw at the `!res.ok` check), a non-JSON content type (the throw
at the content-type check), or any other thrown error message. -/
inductive FetchErr where
  | network : FetchErr
  | httpStatus (code : Nat) (statusText : String) (body : String) : FetchErr
  | notJson (contentType : Option String) (body : String) : FetchErr
  | other (msg : String) : FetchErr

/-- The `catch` block's error summarization, composed with the message
each throw site builds: the `HTTP ${status} ...` message matches
`/HTTP (\d+)/` and yields the status code, the content-type message
contains `JSON`, and any other message is truncated to 50 characters. -/
def classifyError : FetchErr → String
  | .network => "🔴 서버 연결 실패"
  | .httpStatus code _ _ => "🔴 HTTP " ++ toString code ++ " 오류"
  | .notJson _ _ => "🔴 잘못된 응답 형식"
  | .other msg =>
      "🔴 " ++ (if msg.length > 50 then String.mk (msg.data.take 50) ++ "..." else msg)

/-- Outcome of the awaited request in `fetchData`. -/
inductive FetchResult where
  | success (data : Json) : FetchResult
  | failure (e : FetchErr) : FetchResult

/-- The per-card update applied by the success branch's `prev.map`. -/
def updateCardOnSuccess (cardId : String) (data : Json) (now : Nat) (c : Card) : Card :=
  if c.id = cardId then
    { c with
      response := data
      error := none
      loading := false
      lastUpdated := if responseChanged c.response data then some now else c.lastUpdated }
  else c

/-- The optimistic first `setCards` of `fetchData`: mark the matching
card as loading. -/
def markLoading (cards : List Card) (cardId : String) : List Card :=
  cards.map (fun c => if c.id = cardId then { c with loading := true } else c)

/-- The whole `fetchData(cardId)` handler for one resolved request:
first the optimistic `loading: true` map, then the early return when
the id is not found in the captured card list, then either the success
branch (stringify comparison, conditional changed-id insertion,
response/error/loading/lastUpdated update) or the catch branch
(classified error message, `loading: false`, response untouched). -/
def fetchData (st : AppState) (cardId : String) (result : FetchResult) (now : Nat) : AppState :=
  match st.cards.find? (fun c => c.id == cardId) with
  | none => { st with cards := markLoading st.cards cardId }
  | some _ =>
    match result with
    | .success data =>
        { cards := (markLoading st.cards cardId).map (updateCardOnSuccess cardId data now)
          changedCardIds :=
            if (markLoading st.cards cardId).any
                (fun c => c.id == cardId && responseChanged c.response data && c.autoRefresh) then
              setAdd st.changedCardIds cardId
            else st.changedCardIds }
    | .failure e =>
        { st with
          cards := (markLoading st.cards cardId).map
            (fun c =>
              if c.id = cardId then { c with error := some (classifyError e), loading := false }
              else c) }

/-- `toggleAutoRefresh(cardId)`. -/
def toggleAutoRefresh (cards : List Card) (cardId : String) : List Card :=
  cards.map (fun c => if c.id = cardId then { c with autoRefresh := !c.autoRefresh } else c)

/-- `addCard()`:  `none` models the alert-and-return branch when the
trimmed name or url is empty (the registry is left untouched); otherwise
the new card is appended, with `Date.now().toString()` modelled as the
decimal string of the `now` parameter. -/
def addCard (cards : List Card) (name url swaggerUrl : String) (now : Nat) :
    Option (List Card) :=
  if trimString name = "" || trimString url = "" then none
  else
    some (cards ++
      [{ id := toString now
         name := trimString name
         url := trimString url
         swaggerUrl := if trimString swaggerUrl = "" then none else some (trimString swaggerUrl)
         autoRefresh := false
         loading := false
         response := .null
         error := none
         lastUpdated := none }])

/-- `saveEditCard()`: `none` models the alert-and-return branch when the
trimmed name or url is empty; otherwise every card whose id equals
`editingCardId` (a `string | null`) gets the trimmed fields merged in,
and every other card is mapped to itself. -/
def saveEditCard (cards : List Card) (editingCardId : Option String)
    (name url swaggerUrl : String) : Option (List Card) :=
  if trimString name = "" || trimString url = "" then none
  else
    some (cards.map (fun c =>
      if some c.id = editingCardId then
        { c with
          name := trimString name
          url := trimString url
          swaggerUrl := if trimString swaggerUrl = "" then none else some (trimString swaggerUrl) }
      else c))

/-- `deleteCard(cardId)` after the user confirms the dialog: the card is
filtered out and the id is deleted from the changed set. -/
def deleteCard (st : AppState) (cardId : String) : AppState :=
  { cards := st.cards.filter (fun c => c.id ≠ cardId)
    changedCardIds := setDelete st.changedCardIds cardId }

/-- Two JSON objects that are equal as values but list their keys in a
different order. -/
def objAB : Json := .obj [("a", .num 1), ("b", .num 2)]

def objBA : Json := .obj [("b", .num 2), ("a", .num 1)]

/-- A concrete card with auto-refresh on and `objAB` as stored response. -/
def cardAB : Card := { defaultCard with autoRefresh := true, response := objAB }

/-- A stored card carrying an empty-string error message. -/
def emptyErrCard : Card := { defaultCard with error := some "" }

/-- A card whose stored `error`, `swaggerUrl` and `response` survive the
JavaScript `||` coercions of `loadCardsFromStorage` unchanged: the error
and swagger url are absent or non-empty and the response is `null` or
truthy.  Every card the handlers themselves produce satisfies this. -/
def roundTripSafe (c : Card) : Prop :=
  c.error ≠ some "" ∧ c.swaggerUrl ≠ some "" ∧
    (c.response = Json.null ∨ c.response.truthy = true)

/-! ## Helper lemmas -/

theorem mem_setAdd (s : List String) (x y : String) :
    y ∈ setAdd s x ↔ y ∈ s ∨ y = x := by
  unfold setAdd
  by_cases h : x ∈ s
  · rw [if_pos h]
    constructor
    · exact Or.inl
    · rintro (hy | rfl)
      · exact hy
      · exact h
  · rw [if_neg h]
    simp

theorem mem_setDelete (s : List String) (x y : String) :
    y ∈ setDelete s x ↔ y ∈ s ∧ y ≠ x := by
  simp [setDelete]

theorem responseChanged_self (d : Json) : responseChanged d d = false := by
  simp [responseChanged]

/-- A conditional per-card update whose condition holds for no member is
the identity on the list. -/
theorem map_ite_id (p : Card → Prop) [DecidablePred p] (f : Card → Card)
    (cards : List Card) (h : ∀ c ∈ cards, ¬ p c) :
    cards.map (fun c => if p c then f c else c) = cards := by
  induction cards with
  | nil => rfl
  | cons c rest ih =>
      simp only [List.map_cons]
      rw [if_neg (h c (List.mem_cons_self c rest)),
        ih (fun c' hc' => h c' (List.mem_cons_of_mem c hc'))]

theorem markLoading_absent (cards : List Card) (i : String)
    (h : ∀ c ∈ cards, c.id ≠ i) : markLoading cards i = cards :=
  map_ite_id (fun c => c.id = i) _ cards h

/-- Marking the target card loading and then applying the success update
is the direct success update. -/
theorem markLoading_then_success (i : String) (d : Json) (now : Nat) (c : Card) :
    updateCardOnSuccess i d now (if c.id = i then { c with loading := true } else c) =
      (if c.id = i then
        { c with
          response := d
          error := none
          loading := false
          lastUpdated := if responseChanged c.response d then some now else c.lastUpdated }
      else c) := by
  by_cases h : c.id = i <;> simp [updateCardOnSuccess, h]

/-- Cards portion of the success branch of `fetchData`, collapsed to a
single map over the previous card list (including the absent-id early
return, where both sides are the identity). -/
theorem fetchData_success_cards (st : AppState) (i : String) (d : Json) (now : Nat) :
    (fetchData st i (.success d) now).cards =
      st.cards.map (fun c =>
        if c.id = i then
          { c with
            response := d
            error := none
            loading := false
            lastUpdated := if responseChanged c.response d then some now else c.lastUpdated }
        else c) := by
  unfold fetchData
  cases hf : st.cards.find? (fun c => c.id == i) with
  | none =>
      have h : ∀ c ∈ st.cards, ¬ c.id = i := by
        intro c hc
        simpa using List.find?_eq_none.mp hf c hc
      show markLoading st.cards i = _
      rw [markLoading_absent st.cards i h, map_ite_id (fun c => c.id = i) _ st.cards h]
  | some c₀ =>
      show (markLoading st.cards i).map (updateCardOnSuccess i d now) = _
      rw [markLoading, List.map_map]
      apply List.map_congr_left
      intro c _
      exact markLoading_then_success i d now c

/-- Changed-card-id set portion of the success branch of `fetchData`. -/
theorem fetchData_success_changed (st : AppState) (i : String) (d : Json) (now : Nat) :
    (fetchData st i (.success d) now).changedCardIds =
      if st.cards.any (fun c => c.id == i && responseChanged c.response d && c.autoRefresh) then
        setAdd st.changedCardIds i
      else st.changedCardIds := by
  have hany : (markLoading st.cards i).any
      (fun c => c.id == i && responseChanged c.response d && c.autoRefresh) =
      st.cards.any (fun c => c.id == i && responseChanged c.response d && c.autoRefresh) := by
    rw [markLoading, List.any_map]
    congr 1
    funext c
    by_cases h : c.id = i <;> simp [Function.comp, h]
  unfold fetchData
  cases hf : st.cards.find? (fun c => c.id == i) with
  | none =>
      have h : ∀ c ∈ st.cards, (c.id == i) = false := by
        intro c hc
        simpa using List.find?_eq_none.mp hf c hc
      have : st.cards.any (fun c => c.id == i && responseChanged c.response d && c.autoRefresh) =
          false := by
        rw [List.any_eq_false]
        intro c hc
        simp [h c hc]
      simp [this]
  | some c₀ =>
      simpa using congrArg
        (fun b => if b then setAdd st.changedCardIds i else st.changedCardIds) hany

theorem fetchData_failure_cards (st : AppState) (i : String) (e : FetchErr) (now : Nat) :
    (fetchData st i (.failure e) now).cards =
      st.cards.map (fun c =>
        if c.id = i then { c with error := some (classifyError e), loading := false } else c) := by
  unfold fetchData
  cases hf : st.cards.find? (fun c => c.id == i) with
  | none =>
      have h : ∀ c ∈ st.cards, ¬ c.id = i := by
        intro c hc
        simpa using List.find?_eq_none.mp hf c hc
      show markLoading st.cards i = _
      rw [markLoading_absent st.cards i h, map_ite_id (fun c => c.id = i) _ st.cards h]
  | some c₀ =>
      show (markLoading st.cards i).map _ = _
      rw [markLoading, List.map_map]
      apply List.map_congr_left
      intro c _
      by_cases h : c.id = i <;> simp [Function.comp, h]

theorem fetchData_failure_changed (st : AppState) (i : String) (e : FetchErr) (now : Nat) :
    (fetchData st i (.failure e) now).changedCardIds = st.changedCardIds := by
  unfold fetchData
  cases st.cards.find? (fun c => c.id == i) <;> rfl

/-! ## Claims -/

/-- C5: adding a card whose trimmed name or url is empty is rejected with
the registry left unchanged (the alert-and-return branch, modelled as
`none`); for non-empty trimmed name and url exactly one new card is
appended to the end of the sequence, with `autoRefresh = false`,
`loading = false`, `response = null` and `error = null`. -/
theorem addCard_validates_and_appends (cards : List Card) (name url sw : String) (now : Nat) :
    ((trimString name = "" ∨ trimString url = "") → addCard cards name url sw now = none) ∧
    (trimString name ≠ "" → trimString url ≠ "" →
      addCard cards name url sw now =
        some (cards ++
          [{ id := toString now
             name := trimString name
             url := trimString url
             swaggerUrl := if trimString sw = "" then none else some (trimString sw)
             autoRefresh := false
             loading := false
             response := .null
             error := none
             lastUpdated := none }])) := by
  constructor
  · intro h
    unfold addCard
    rcases h with h | h <;> simp [h]
  · intro hn hu
    unfold addCard
    rw [if_neg (by simp [hn, hu])]

/-- C5 witness: a whitespace-only name is rejected; adding `Orders`
appends exactly that card. -/
theorem addCard_validates_and_appends_witness :
    addCard [defaultCard] " " "http://x/openapi" "" 5 = none ∧
    addCard [defaultCard] "Orders" "http://x/openapi" "" 5 =
      some ([defaultCard] ++
        [{ id := toString 5
           name := "Orders"
           url := "http://x/openapi"
           swaggerUrl := none
           autoRefresh := false
           loading := false
           response := .null
           error := none
           lastUpdated := none }]) :=
  ⟨(addCard_validates_and_appends [defaultCard] " " "http://x/openapi" "" 5).1
      (Or.inl (by decide)),
   (addCard_validates_and_appends [defaultCard] "Orders" "http://x/openapi" "" 5).2
      (by decide) (by decide)⟩

/-- C6: on fetch failure the matching card gets the classified short
error message and `loading = false`, every card's `response` is left
untouched, the changed-card-id set is untouched, and an HTTP 500
failure in particular is classified as an HTTP 500 message. -/
theorem fetchFailure_classifies_and_keeps_response (st : AppState) (i : String)
    (e : FetchErr) (now : Nat) :
    (fetchData st i (.failure e) now).cards =
      st.cards.map (fun c =>
        if c.id = i then { c with error := some (classifyError e), loading := false } else c) ∧
    (fetchData st i (.failure e) now).cards.map Card.response = st.cards.map Card.response ∧
    (fetchData st i (.failure e) now).changedCardIds = st.changedCardIds ∧
    classifyError (.httpStatus 500 "Internal Server Error" "oops") = "🔴 HTTP 500 오류" := by
  refine ⟨fetchData_failure_cards st i e now, ?_, fetchData_failure_changed st i e now, rfl⟩
  rw [fetchData_failure_cards st i e now, List.map_map]
  apply List.map_congr_left
  intro c _
  by_cases h : c.id = i <;> simp [Function.comp, h]

/-- C9: `deleteCard` removes every card with the given id from the
registry and the id from the changed-card-id set, keeping every other
card and every other changed id. -/
theorem deleteCard_purges_id (st : AppState) (i : String) :
    (∀ c ∈ (deleteCard st i).cards, c.id ≠ i) ∧
    i ∉ (deleteCard st i).changedCardIds ∧
    (∀ c ∈ st.cards, c.id ≠ i → c ∈ (deleteCard st i).cards) ∧
    (∀ j ∈ st.changedCardIds, j ≠ i → j ∈ (deleteCard st i).changedCardIds) := by
  refine ⟨?_, ?_, ?_, ?_⟩
  · intro c hc
    have h := List.mem_filter.mp hc
    simpa using h.2
  · simp [deleteCard, mem_setDelete]
  · intro c hc hne
    exact List.mem_filter.mpr ⟨hc, by simpa using hne⟩
  · intro j hj hne
    exact (mem_setDelete _ _ _).mpr ⟨hj, hne⟩

/-- C9 witness: deleting card `1` drops its id from the changed set and
keeps the other changed id. -/
theorem deleteCard_purges_id_witness :
    "1" ∉ (deleteCard ⟨[defaultCard], ["1", "2"]⟩ "1").changedCardIds ∧
    "2" ∈ (deleteCard ⟨[defaultCard], ["1", "2"]⟩ "1").changedCardIds :=
  ⟨(deleteCard_purges_id ⟨[defaultCard], ["1", "2"]⟩ "1").2.1,
   (deleteCard_purges_id ⟨[defaultCard], ["1", "2"]⟩ "1").2.2.2 "2" (by decide) (by decide)⟩

/-- C10: invoking `fetchData` with an id no card carries leaves the whole
state unchanged for any request outcome (the loading-mark map is the
identity and the handler returns before the request), and
`toggleAutoRefresh` with such an id maps every card to itself. -/
theorem unknownId_noop (st : AppState) (i : String) (r : FetchResult) (now : Nat)
    (h : ∀ c ∈ st.cards, c.id ≠ i) :
    fetchData st i r now = st ∧ toggleAutoRefresh st.cards i = st.cards := by
  constructor
  · have hf : st.cards.find? (fun c => c.id == i) = none := by
      rw [List.find?_eq_none]
      intro c hc
      simpa using h c hc
    unfold fetchData
    rw [hf, markLoading_absent st.cards i h]
  · exact map_ite_id (fun c => c.id = i) _ st.cards h

/-- C10 witness: a concrete absent id is a no-op for both handlers. -/
theorem unknownId_noop_witness :
    fetchData ⟨[defaultCard], []⟩ "zzz" (.success .null) 3 = ⟨[defaultCard], []⟩ ∧
    toggleAutoRefresh [defaultCard] "zzz" = [defaultCard] :=
  unknownId_noop ⟨[defaultCard], []⟩ "zzz" (.success .null) 3
    (by intro c hc; rw [List.mem_singleton] at hc; subst hc; decide)

/-- C1 counterexample: two responses that are deep-structurally equal
(same fields, keys in a different order) are counted as changed by the
code, because the comparison is `JSON.stringify` inequality: the fetch
marks the card changed and advances `lastUpdated`. -/
theorem changeDetection_not_structural_counterexample :
    structuralEqSpec objAB objBA = true ∧
    responseChanged objAB objBA = true ∧
    (fetchData ⟨[cardAB], []⟩ "1" (.success objBA) 99).changedCardIds = ["1"] ∧
    (fetchData ⟨[cardAB], []⟩ "1" (.success objBA) 99).cards.map Card.lastUpdated = [some 99] :=
  ⟨rfl, rfl, rfl, rfl⟩

/-- C1 (amended): the change detector compares the stringified forms of
the stored and the new response (`JSON.stringify` inequality), and this
string comparison alone decides whether the card counts as changed
(drives `lastUpdated` and the changed-card-id set); it is not stable
under object-key reordering. -/
theorem changeDetection_by_stringify (st : AppState) (i : String) (d : Json) (now : Nat) :
    (fetchData st i (.success d) now).cards =
      st.cards.map (fun c =>
        if c.id = i then
          { c with
            response := d
            error := none
            loading := false
            lastUpdated :=
              if Json.stringify c.response != Json.stringify d then some now
              else c.lastUpdated }
        else c) ∧
    (fetchData st i (.success d) now).changedCardIds =
      (if st.cards.any (fun c =>
          c.id == i && (Json.stringify c.response != Json.stringify d) && c.autoRefresh) then
        setAdd st.changedCardIds i
      else st.changedCardIds) :=
  ⟨fetchData_success_cards st i d now, fetchData_success_changed st i d now⟩

/-- C2 counterexample: `addCard` derives the id from the clock alone and
never checks it against existing ids, so adding a card when the clock
string collides with an existing id (here both are `"1"`) produces two
cards with the same id. -/
theorem addCard_duplicate_id_counterexample :
    addCard [defaultCard] "Orders" "http://x/openapi" "" 1 =
      some [defaultCard,
        { id := "1"
          name := "Orders"
          url := "http://x/openapi"
          swaggerUrl := none
          autoRefresh := false
          loading := false
          response := .null
          error := none
          lastUpdated := none }] ∧
    ¬ (((addCard [defaultCard] "Orders" "http://x/openapi" "" 1).getD []).map Card.id).Nodup :=
  ⟨rfl, by decide⟩

/-- C2 (amended): `addCard` assigns the new card the decimal string of
the creation time as id; the resulting registry has pairwise distinct
ids provided the existing ids were pairwise distinct and none of them
equals that time string (there is no uniqueness check in the code). -/
theorem addCard_ids_nodup (cards : List Card) (name url sw : String) (now : Nat)
    (res : List Card)
    (h1 : (cards.map Card.id).Nodup) (h2 : toString now ∉ cards.map Card.id)
    (h3 : addCard cards name url sw now = some res) :
    (res.map Card.id).Nodup ∧ res.map Card.id = cards.map Card.id ++ [toString now] := by
  unfold addCard at h3
  by_cases hv : trimString name = "" || trimString url = ""
  · rw [if_pos hv] at h3
    cases h3
  · rw [if_neg hv] at h3
    injection h3 with h3
    subst h3
    refine ⟨?_, by simp⟩
    rw [List.map_append]
    simp [List.nodup_append, h1, h2]

/-- C2 witness: adding `Orders` at time 5 to the default registry keeps
the ids pairwise distinct. -/
theorem addCard_ids_nodup_witness :
    (([defaultCard,
       { id := toString 5
         name := "Orders"
         url := "http://x/openapi"
         swaggerUrl := none
         autoRefresh := false
         loading := false
         response := .null
         error := none
         lastUpdated := none }].map Card.id).Nodup) ∧
    [defaultCard,
       { id := toString 5
         name := "Orders"
         url := "http://x/openapi"
         swaggerUrl := none
         autoRefresh := false
         loading := false
         response := .null
         error := none
         lastUpdated := none }].map Card.id = [defaultCard].map Card.id ++ [toString 5] :=
  addCard_ids_nodup [defaultCard] "Orders" "http://x/openapi" "" 5 _
    (by decide) (by decide) rfl

/-- C3 counterexample: saving an edit for an id that is in no card does
not fail (the rejection branch `none` is only for validation): it
returns the registry unchanged, with no NotFoundError anywhere in the
code path. -/
theorem updateCard_absent_no_failure_counterexample :
    saveEditCard [defaultCard] (some "2") "NewName" "http://new" "" ≠ none ∧
    saveEditCard [defaultCard] (some "2") "NewName" "http://new" "" = some [defaultCard] :=
  ⟨fun h => Option.noConfusion h, rfl⟩

/-- C3 (amended): for non-empty trimmed name and url, `saveEditCard`
merges the trimmed fields into every card whose id matches
`editingCardId` and maps every other card to itself; when no card
matches it returns the registry unchanged and raises no error. -/
theorem saveEditCard_merges_or_noop (cards : List Card) (eid : Option String)
    (name url sw : String) (hn : trimString name ≠ "") (hu : trimString url ≠ "") :
    saveEditCard cards eid name url sw =
      some (cards.map (fun c =>
        if some c.id = eid then
          { c with
            name := trimString name
            url := trimString url
            swaggerUrl := if trimString sw = "" then none else some (trimString sw) }
        else c)) ∧
    ((∀ c ∈ cards, some c.id ≠ eid) → saveEditCard cards eid name url sw = some cards) := by
  have hv : ¬ (trimString name = "" || trimString url = "") := by simp [hn, hu]
  constructor
  · unfold saveEditCard
    rw [if_neg hv]
  · intro habs
    unfold saveEditCard
    rw [if_neg hv]
    rw [map_ite_id (fun c => some c.id = eid) _ cards habs]

/-- C3 witness: editing the present id `1` merges the new fields; an
absent id leaves the registry unchanged. -/
theorem saveEditCard_merges_or_noop_witness :
    saveEditCard [defaultCard] (some "2") "Users2" "http://u2" "" = some [defaultCard] :=
  (saveEditCard_merges_or_noop [defaultCard] (some "2") "Users2" "http://u2" ""
    (by decide) (by decide)).2 (by intro c hc; rw [List.mem_singleton] at hc; subst hc; decide)

/-- C4 counterexample: a stored card whose `error` is the empty string is
not reproduced by the reload: `card.error || null` collapses the empty
string to `null`, so `error` is not preserved. -/
theorem storage_roundTrip_counterexample :
    loadCardsFromStorage (serializeCards [emptyErrCard]) ≠
      [emptyErrCard].map (fun c => { c with loading := false }) := fun h =>
  absurd (congrArg (fun l => l.map Card.error) h) (by decide)

/-- C4 (amended): serializing the card sequence and reloading reproduces
the same cards with every `loading` forced to false and `lastUpdated`,
`response`, `error` preserved, provided no stored card carries an
empty-string `error` or `swaggerUrl` or a falsy non-null `response`
(the JavaScript `||` coercions in the reload collapse those); on parse
failure or absence the single built-in default card is returned. -/
theorem storage_roundTrip (cards : List Card) (h : ∀ c ∈ cards, roundTripSafe c) :
    loadCardsFromStorage (serializeCards cards) =
      cards.map (fun c => { c with loading := false }) ∧
    loadCardsFromStorage none = [defaultCard] := by
  constructor
  · show cards.map restoreCard = _
    apply List.map_congr_left
    intro c hc
    obtain ⟨he, hs, hr⟩ := h c hc
    obtain ⟨cid, cname, curl, csw, car, cld, cresp, cerr, clu⟩ := c
    simp only [restoreCard, Card.mk.injEq, true_and, and_true]
    refine ⟨?_, ?_, ?_⟩
    · cases csw with
      | none => rfl
      | some s =>
          show (if s = "" then none else some s) = some s
          rw [if_neg (by simpa using hs)]
    · rcases hr with h0 | ht
      · have h0' : cresp = Json.null := h0
        simp [h0', Json.truthy]
      · have ht' : cresp.truthy = true := ht
        rw [if_pos ht']
    · cases cerr with
      | none => rfl
      | some s =>
          show (if s = "" then none else some s) = some s
          rw [if_neg (by simpa using he)]
  · rfl

/-- C4 witness: the default card round-trips with `loading` forced
false; missing storage yields the default card. -/
theorem storage_roundTrip_witness :
    loadCardsFromStorage (serializeCards [defaultCard]) =
      [defaultCard].map (fun c => { c with loading := false }) ∧
    loadCardsFromStorage none = [defaultCard] :=
  storage_roundTrip [defaultCard]
    (by
      intro c hc
      rw [List.mem_singleton] at hc
      subst hc
      exact ⟨by decide, by decide, Or.inl rfl⟩)

/-- After a successful fetch, every card matching the fetched id stores
the fetched data as its response. -/
theorem fetchData_success_response_set (st : AppState) (i : String) (d : Json) (now : Nat) :
    ∀ c ∈ (fetchData st i (.success d) now).cards, c.id = i → c.response = d := by
  rw [fetchData_success_cards]
  intro c hc hid
  obtain ⟨c₀, hc₀, rfl⟩ := List.mem_map.mp hc
  by_cases h : c₀.id = i
  · simp [h]
  · rw [if_neg h] at hid ⊢
    exact absurd hid h

/-- When every card matching the fetched id already stores the fetched
data, a successful fetch changes no card's `lastUpdated`. -/
theorem fetchData_success_lastUpdated_of_same (st : AppState) (i : String) (d : Json)
    (now : Nat) (h : ∀ c ∈ st.cards, c.id = i → c.response = d) :
    (fetchData st i (.success d) now).cards.map Card.lastUpdated =
      st.cards.map Card.lastUpdated := by
  rw [fetchData_success_cards, List.map_map]
  apply List.map_congr_left
  intro c hc
  by_cases hid : c.id = i
  · simp [Function.comp, hid, h c hc hid, responseChanged_self]
  · simp [Function.comp, hid]

/-- C7: change detection is idempotent with respect to `lastUpdated`:
a successful fetch whose data equals the stored response of every
matching card updates no `lastUpdated`, and in particular feeding the
same data twice in a row never updates any `lastUpdated` the second
time. -/
theorem changeDetection_idempotent (st : AppState) (i : String) (d : Json) (n1 n2 : Nat) :
    ((∀ c ∈ st.cards, c.id = i → c.response = d) →
      (fetchData st i (.success d) n1).cards.map Card.lastUpdated =
        st.cards.map Card.lastUpdated) ∧
    (fetchData (fetchData st i (.success d) n1) i (.success d) n2).cards.map Card.lastUpdated =
      (fetchData st i (.success d) n1).cards.map Card.lastUpdated :=
  ⟨fetchData_success_lastUpdated_of_same st i d n1,
   fetchData_success_lastUpdated_of_same _ i d n2 (fetchData_success_response_set st i d n1)⟩

/-- C7 witness: fetching the stored response again leaves the concrete
card's `lastUpdated` unchanged, and so does a second identical fetch. -/
theorem changeDetection_idempotent_witness :
    ((fetchData ⟨[cardAB], []⟩ "1" (.success objAB) 7).cards.map Card.lastUpdated =
      [cardAB].map Card.lastUpdated) ∧
    (fetchData (fetchData ⟨[cardAB], []⟩ "1" (.success objAB) 7) "1"
        (.success objAB) 8).cards.map Card.lastUpdated =
      (fetchData ⟨[cardAB], []⟩ "1" (.success objAB) 7).cards.map Card.lastUpdated :=
  ⟨(changeDetection_idempotent ⟨[cardAB], []⟩ "1" objAB 7 8).1
      (by intro c hc _; rw [List.mem_singleton] at hc; subst hc; rfl),
   (changeDetection_idempotent ⟨[cardAB], []⟩ "1" objAB 7 8).2⟩

/-- C8: after a successful fetch an id is in the changed-card-id set iff
it already was, or it is the fetched id and some card with that id had
a differing stored response with auto-refresh on; the success path also
stores the new response and clears the error; and navigating into a
card's detail view removes exactly that id from the set. -/
theorem changedSet_tracking (st : AppState) (i : String) (d : Json) (now : Nat) :
    (∀ j : String,
      j ∈ (fetchData st i (.success d) now).changedCardIds ↔
        (j ∈ st.changedCardIds ∨
          (j = i ∧ ∃ c ∈ st.cards, c.id = i ∧ responseChanged c.response d = true ∧
            c.autoRefresh = true))) ∧
    (fetchData st i (.success d) now).cards =
      st.cards.map (fun c =>
        if c.id = i then
          { c with
            response := d
            error := none
            loading := false
            lastUpdated := if responseChanged c.response d then some now else c.lastUpdated }
        else c) ∧
    (∀ st₂ : AppState,
      i ∉ (handleCardClick st₂ i).changedCardIds ∧
      ∀ j ∈ st₂.changedCardIds, j ≠ i → j ∈ (handleCardClick st₂ i).changedCardIds) := by
  refine ⟨?_, fetchData_success_cards st i d now, ?_⟩
  · intro j
    rw [fetchData_success_changed]
    by_cases hb : st.cards.any (fun c => c.id == i && responseChanged c.response d && c.autoRefresh)
    · rw [if_pos hb, mem_setAdd]
      rw [List.any_eq_true] at hb
      obtain ⟨c, hc, hcp⟩ := hb
      simp only [Bool.and_eq_true, beq_iff_eq] at hcp
      obtain ⟨⟨hid, hrc⟩, har⟩ := hcp
      constructor
      · rintro (hj | rfl)
        · exact Or.inl hj
        · exact Or.inr ⟨rfl, c, hc, hid, hrc, har⟩
      · rintro (hj | ⟨rfl, _⟩)
        · exact Or.inl hj
        · exact Or.inr rfl
    · rw [if_neg hb]
      constructor
      · exact Or.inl
      · rintro (hj | ⟨rfl, c, hc, hid, hrc, har⟩)
        · exact hj
        · exact absurd (List.any_eq_true.mpr ⟨c, hc, by simp [hid, hrc, har]⟩) hb
  · intro st₂
    constructor
    · unfold handleCardClick
      by_cases h : i ∈ st₂.changedCardIds
      · rw [if_pos h]
        simp [mem_setDelete]
      · rw [if_neg h]
        exact h
    · intro j hj hne
      unfold handleCardClick
      by_cases h : i ∈ st₂.changedCardIds
      · rw [if_pos h]
        exact (mem_setDelete _ _ _).mpr ⟨hj, hne⟩
      · rw [if_neg h]
        exact hj

/-- C8 witness: a differing response on an auto-refreshing card puts its
id into the changed set, and clicking the card removes it. -/
theorem changedSet_tracking_witness :
    "1" ∈ (fetchData ⟨[cardAB], []⟩ "1" (.success (Json.num 3)) 9).changedCardIds ∧
    "1" ∉ (handleCardClick ⟨[cardAB], ["1"]⟩ "1").changedCardIds :=
  ⟨((changedSet_tracking ⟨[cardAB], []⟩ "1" (Json.num 3) 9).1 "1").mpr
      (Or.inr ⟨rfl, cardAB, List.mem_singleton.mpr rfl, rfl, rfl, rfl⟩),
   ((changedSet_tracking ⟨[cardAB], []⟩ "1" (Json.num 3) 9).2.2 ⟨[cardAB], ["1"]⟩).1⟩

end JanusSpecView
